import Mathlib

/-!
Shallow embedding of the prompt/resumption core of libmprompt
(`src/mprompt/mprompt.c`).

Pointers are modelled as `Nat` addresses (0-free, 8-aligned when allocated, so
that bit 2 is available for the once/multi handle tag as in the source).  The
two heaps (prompt structures, which live at the base of their gstack, and
multi-resumption records from `mp_malloc`) are total maps `Nat → _`; the
thread-local `_mp_prompt_top` is a field of the state.  Calls into the external
collaborators (`mp_unwind_frame_update`, `mp_gsave_restore`, `mp_gsave_free`,
`mp_gstack_free`, `mp_error_message`) are recorded in append-only logs so that
their order and arguments are observable.  Loops that walk parent chains take
explicit fuel; every theorem that needs a loop supplies fuel at least the
chain length.  Control transfers (`mp_longjmp` targets) are returned as
first-class action descriptions rather than performed.
-/

set_option maxHeartbeats 1000000

/-- A jump buffer (`mp_jmpbuf_t`); only `reg_sp` is inspected by the core. -/
structure JmpBuf where
  reg_sp : Nat
deriving DecidableEq

/-- `mp_return_kind_t`. -/
inductive ReturnKind
  | mpReturn
  | mpException
  | mpYieldOnce
  | mpYieldMulti
deriving DecidableEq

/-- `mp_resume_point_s`: allocated on the suspended (yielding) stack. -/
structure ResumePoint where
  jmp : JmpBuf
  result : Nat
deriving DecidableEq

/-- `mp_return_point_s`: allocated on the parent stack.  The C field `fun` is
called `yfun` here (`fun` is a Lean keyword). -/
structure ReturnPoint where
  jmp : JmpBuf
  kind : ReturnKind
  yfun : Nat
  arg : Nat
deriving DecidableEq

/-- `mp_prompt_s`.  `parent`, `top` are prompt addresses; `return_point` and
`resume_point` hold the pointed-to records (`none` = NULL). -/
structure Prompt where
  parent : Option Nat
  top : Option Nat
  refcount : Int
  gstack : Nat
  return_point : Option ReturnPoint
  resume_point : Option ResumePoint
  start_fun : Option Nat
  start_arg : Nat
  unwind_frame : Option Nat
deriving DecidableEq

/-- Result of `mp_gstack_save(gstack, sp)` (opaque snapshot, identified by its
arguments). -/
structure GSave where
  gstack : Nat
  sp : Option Nat
deriving DecidableEq

/-- `mp_prompt_save_s`; the `next` pointer is modelled by the enclosing
`List`. -/
structure SaveNode where
  prompt : Nat
  gsave : GSave
deriving DecidableEq

/-- `mp_mresume_s` (multi-shot resumption record); `save = []` models a NULL
save list. -/
structure MResume where
  refcount : Int
  resume_count : Int
  prompt : Nat
  save : List SaveNode
  tail_return_point : Option ReturnPoint
deriving DecidableEq

/-- The global state: the two heaps, the thread-local `_mp_prompt_top`, an
allocation counter, the multi-resumption liveness map, and the logs of calls
to the external collaborators. -/
structure MPState where
  prompts : Nat → Prompt
  mresumes : Nat → MResume
  prompt_top : Option Nat
  next_block : Nat
  mr_alloc : Nat → Bool
  unwind_updates : List (Option Nat × JmpBuf)
  gsave_restores : List GSave
  gsave_frees : List GSave
  gstack_frees : List (Nat × Bool)
  errors : List Nat

/-- `mp_prompt_top`. -/
def mp_prompt_top (s : MPState) : Option Nat :=
  s.prompt_top

/-- `mp_prompt_parent`: with argument NULL it returns the current top. -/
def mp_prompt_parent (s : MPState) (p : Option Nat) : Option Nat :=
  match p with
  | none => mp_prompt_top s
  | some pid => (s.prompts pid).parent

/-- `mp_prompt_is_active`: `p != NULL && p->top == NULL`. -/
def mp_prompt_is_active (s : MPState) (p : Option Nat) : Bool :=
  match p with
  | none => false
  | some pid => (s.prompts pid).top == none

/-- `mp_prompt_create`: reserve a fresh gstack, carve the prompt header at its
base (fresh 8-aligned nonzero address), initialize it suspended
(`top = self`), refcount 1, store the start closure; returns the once handle
(the untagged prompt address). -/
def mp_prompt_create (s : MPState) (sfun : Nat) (start_arg : Nat) : MPState × Nat :=
  let pid := 8 * s.next_block + 8
  let p : Prompt :=
    { parent := none, top := some pid, refcount := 1, gstack := pid,
      return_point := none, resume_point := none,
      start_fun := some sfun, start_arg := start_arg, unwind_frame := none }
  ({ s with prompts := Function.update s.prompts pid p,
            next_block := s.next_block + 1 }, pid)

/-- Loop body of `mp_prompt_free`: walk from `p->top` via `parent`, freeing
each gstack (with the delay flag) and decrementing the parent refcount. -/
def mp_prompt_free_loop (delay : Bool) : MPState → Option Nat → Nat → MPState
  | s, none, _ => s
  | s, some _, 0 => s
  | s, some pid, fuel + 1 =>
    let p := s.prompts pid
    let s1 := { s with gstack_frees := s.gstack_frees ++ [(p.gstack, delay)] }
    let s2 :=
      match p.parent with
      | some par =>
        let q := s1.prompts par
        { s1 with prompts := Function.update s1.prompts par ({ q with refcount := q.refcount - 1 }) }
      | none => s1
    mp_prompt_free_loop delay s2 p.parent fuel

/-- `mp_prompt_free` (requires `p` suspended). -/
def mp_prompt_free (s : MPState) (pid : Nat) (delay : Bool) (fuel : Nat) : MPState :=
  mp_prompt_free_loop delay s (s.prompts pid).top fuel

/-- `mp_prompt_drop_internal`: decrement the refcount and free at zero. -/
def mp_prompt_drop_internal (s : MPState) (pid : Nat) (delay : Bool) (fuel : Nat) : MPState :=
  let i := (s.prompts pid).refcount
  let p1 : Prompt := { s.prompts pid with refcount := i - 1 }
  let s1 := { s with prompts := Function.update s.prompts pid p1 }
  if i ≤ 1 then mp_prompt_free s1 pid delay fuel else s1

/-- `mp_prompt_drop`. -/
def mp_prompt_drop (s : MPState) (pid : Nat) (fuel : Nat) : MPState :=
  mp_prompt_drop_internal s pid false fuel

/-- `mp_prompt_dup`: increment the refcount. -/
def mp_prompt_dup (s : MPState) (pid : Nat) : MPState :=
  let p1 : Prompt := { s.prompts pid with refcount := (s.prompts pid).refcount + 1 }
  { s with prompts := Function.update s.prompts pid p1 }

/-- `mp_prompt_link`: link a suspended prompt into the current chain and set
the new prompt top; when `ret` is non-NULL, store it as the return point and
update the platform unwind frame.  Returns `p->resume_point`. -/
def mp_prompt_link (s : MPState) (pid : Nat) (ret : Option ReturnPoint) :
    MPState × Option ResumePoint :=
  let p := s.prompts pid
  let p1 : Prompt :=
    { p with parent := mp_prompt_top s, top := none,
             return_point := match ret with
               | some r => some r
               | none => p.return_point }
  let s1 :=
    { s with prompts := Function.update s.prompts pid p1,
             prompt_top := p.top,
             unwind_updates := match ret with
               | some r => s.unwind_updates ++ [(p.unwind_frame, r.jmp)]
               | none => s.unwind_updates }
  (s1, p.resume_point)

/-- `mp_prompt_unlink`: unlink an active prompt from the current chain and
suspend it; the return point is left as-is for tail-resume reuse.  Returns
`p->return_point`. -/
def mp_prompt_unlink (s : MPState) (pid : Nat) (res : Option ResumePoint) :
    MPState × Option ReturnPoint :=
  let p := s.prompts pid
  let p1 : Prompt := { p with top := mp_prompt_top s, parent := none, resume_point := res }
  let s1 := { s with prompts := Function.update s.prompts pid p1,
                     prompt_top := p.parent }
  (s1, p.return_point)

/-- `mp_resume_is_once`: NULL unless bit 2 of the handle is clear. -/
def mp_resume_is_once (r : Nat) : Option Nat :=
  if r &&& 4 == 0 then some r else none

/-- `mp_resume_is_multi`: NULL unless bit 2 of the handle is set; recovers the
heap pointer by xor-ing bit 2. -/
def mp_resume_is_multi (r : Nat) : Option Nat :=
  if r &&& 4 == 0 then none else some (r ^^^ 4)

/-- `mp_resume_once`: a once handle is the bare prompt pointer. -/
def mp_resume_once (p : Nat) : Nat := p

/-- `mp_resume_multi`: tag a multi-resumption record pointer with bit 2. -/
def mp_resume_multi (r : Nat) : Nat := r ||| 4

/-- `mp_mresume_dup`: increment the record refcount. -/
def mp_mresume_dup (s : MPState) (rid : Nat) : MPState :=
  let r1 : MResume := { s.mresumes rid with refcount := (s.mresumes rid).refcount + 1 }
  { s with mresumes := Function.update s.mresumes rid r1 }

/-- Inner loop of `mp_mresume_drop`: free each saved stacklet snapshot and
drop each referenced prompt, in list order. -/
def mp_mresume_free_saves (fuel : Nat) : MPState → List SaveNode → MPState
  | s, [] => s
  | s, node :: rest =>
    let s1 := { s with gsave_frees := s.gsave_frees ++ [node.gsave] }
    let s2 := mp_prompt_drop s1 node.prompt fuel
    mp_mresume_free_saves fuel s2 rest

/-- `mp_mresume_drop`: decrement the refcount; at zero free the save list,
drop the primary prompt and free the record. -/
def mp_mresume_drop (s : MPState) (rid : Nat) (fuel : Nat) : MPState :=
  let r := s.mresumes rid
  let r1 : MResume := { r with refcount := r.refcount - 1 }
  let s1 := { s with mresumes := Function.update s.mresumes rid r1 }
  if r.refcount ≤ 1 then
    let s2 := mp_mresume_free_saves fuel s1 r.save
    let s3 := mp_prompt_drop s2 r.prompt fuel
    { s3 with mr_alloc := Function.update s3.mr_alloc rid false }
  else s1

/-- Loop of `mp_prompt_save` (a do-while, so it is entered with a non-NULL
prompt): prepend a save node duplicating the visited prompt and snapshotting
its gstack from the current `sp`, then step to the parent with the parent sp
taken from the visited prompt's return point. -/
def mp_prompt_save_loop : MPState → Option Nat → Nat → List SaveNode → Nat →
    MPState × List SaveNode
  | s, _, _, savep, 0 => (s, savep)
  | s, sp, pid, savep, fuel + 1 =>
    let p := s.prompts pid
    let s1 := mp_prompt_dup s pid
    let savep1 := ({ prompt := pid, gsave := { gstack := p.gstack, sp := sp } } : SaveNode) :: savep
    match p.parent with
    | none => (s1, savep1)
    | some par =>
      mp_prompt_save_loop s1 (p.return_point.map (fun rp => rp.jmp.reg_sp)) par savep1 fuel

/-- `mp_prompt_save`: save the full suspended chain starting at `p->top`,
with the initial `sp` taken from `p->resume_point->jmp.reg_sp` (the source
dereferences both unconditionally, so `p` must be suspended with a resume
point). -/
def mp_prompt_save (s : MPState) (pid : Nat) (fuel : Nat) : MPState × List SaveNode :=
  let sp := (s.prompts pid).resume_point.map (fun rp => rp.jmp.reg_sp)
  match (s.prompts pid).top with
  | some t => mp_prompt_save_loop s sp t [] fuel
  | none => (s, [])

/-- `mp_prompt_restore`: restore every snapshot of the save list, in list
order (head first). -/
def mp_prompt_restore (s : MPState) (save : List SaveNode) : MPState :=
  { s with gsave_restores := s.gsave_restores ++ save.map (fun n => n.gsave) }

/-- `mp_resume_get_prompt`: ensure a pristine stack (restore a pre-existing
save, or build one when anyone else could still resume), then dup the prompt
and drop the record, transferring the prompt reference to the caller. -/
def mp_resume_get_prompt (s : MPState) (rid : Nat) (fuel : Nat) : MPState × Nat :=
  let r := s.mresumes rid
  let p := r.prompt
  let s1 :=
    if r.save ≠ [] then
      mp_prompt_restore s r.save
    else if r.refcount > 1 ∨ (s.prompts p).refcount > 1 then
      let t := mp_prompt_save s p fuel
      let r1 : MResume := { t.1.mresumes rid with save := t.2 }
      { t.1 with mresumes := Function.update t.1.mresumes rid r1 }
    else s
  let s2 := mp_prompt_dup s1 p
  let s3 := mp_mresume_drop s2 rid fuel
  (s3, p)

/-- A pending control transfer, as produced by the resume entry points (the
source performs these with `mp_prompt_resume` / `mp_prompt_resume_tail`). -/
inductive ResumeAction
  | resume (pid : Nat) (arg : Nat)
  | resumeTail (pid : Nat) (arg : Nat) (ret : ReturnPoint)
deriving DecidableEq

/-- `mp_mresume`: count the resume, fetch the prompt via
`mp_resume_get_prompt`, and resume it. -/
def mp_mresume (s : MPState) (rid : Nat) (arg : Nat) (fuel : Nat) :
    MPState × ResumeAction :=
  let r := s.mresumes rid
  let r1 : MResume := { r with resume_count := r.resume_count + 1 }
  let s1 := { s with mresumes := Function.update s.mresumes rid r1 }
  let t := mp_resume_get_prompt s1 rid fuel
  (t.1, ResumeAction.resume t.2 arg)

/-- `mp_mresume_tail`: when the cached tail return point is still available,
consume it and tail-resume against it; otherwise fall back to `mp_mresume`. -/
def mp_mresume_tail (s : MPState) (rid : Nat) (arg : Nat) (fuel : Nat) :
    MPState × ResumeAction :=
  let r := s.mresumes rid
  match r.tail_return_point with
  | none => mp_mresume s rid arg fuel
  | some ret =>
    let ra : MResume := { r with tail_return_point := none }
    let s1 := { s with mresumes := Function.update s.mresumes rid ra }
    let r1 := s1.mresumes rid
    let rb : MResume := { r1 with resume_count := r1.resume_count + 1 }
    let s2 := { s1 with mresumes := Function.update s1.mresumes rid rb }
    let t := mp_resume_get_prompt s2 rid fuel
    (t.1, ResumeAction.resumeTail t.2 arg ret)

/-- What the receiver dispatch decides to do after a control transfer lands
back on the parent stack. -/
inductive ExecAction
  | callFun (yfun : Nat) (resume : Nat) (arg : Nat)
  | returnValue (result : Nat)
  | rethrow
deriving DecidableEq

/-- `mp_prompt_exec_yield_fun`: the receiver dispatch on the tag of the
arriving return point. -/
def mp_prompt_exec_yield_fun (s : MPState) (ret : ReturnPoint) (pid : Nat) (fuel : Nat) :
    MPState × ExecAction :=
  match ret.kind with
  | ReturnKind.mpYieldOnce =>
      (s, ExecAction.callFun ret.yfun (mp_resume_once pid) ret.arg)
  | ReturnKind.mpReturn =>
      (mp_prompt_drop s pid fuel, ExecAction.returnValue ret.arg)
  | ReturnKind.mpYieldMulti =>
      let rid := 8 * s.next_block + 8
      let r : MResume :=
        { prompt := pid, refcount := 1, resume_count := 0, save := [],
          tail_return_point := (s.prompts pid).return_point }
      let s1 := { s with mresumes := Function.update s.mresumes rid r,
                         mr_alloc := Function.update s.mr_alloc rid true,
                         next_block := s.next_block + 1 }
      (s1, ExecAction.callFun ret.yfun (mp_resume_multi rid) ret.arg)
  | ReturnKind.mpException =>
      (mp_prompt_drop_internal s pid true fuel, ExecAction.rethrow)

/-- `mp_resume_dup`: duplicating a once handle is an error (message logged,
NULL returned, nothing touched); a multi handle gets its refcount bumped. -/
def mp_resume_dup (s : MPState) (resume : Nat) : MPState × Option Nat :=
  match mp_resume_is_multi resume with
  | none => ({ s with errors := s.errors ++ [22] }, none)
  | some rid => (mp_mresume_dup s rid, some resume)

/-- `mp_resume_resume_count`: 0 for anything that is not a multi handle. -/
def mp_resume_resume_count (s : MPState) (resume : Nat) : Int :=
  match mp_resume_is_multi resume with
  | none => 0
  | some rid => (s.mresumes rid).resume_count

/-- `mp_resume_should_unwind`: multi handle, sole owner, never resumed. -/
def mp_resume_should_unwind (s : MPState) (resume : Nat) : Bool :=
  match mp_resume_is_multi resume with
  | none => false
  | some rid => (s.mresumes rid).refcount == 1 && (s.mresumes rid).resume_count == 0

/-- Parent-walk of a prompt chain from an optional head down past the last
prompt (the source walks this way in `mp_prompt_is_ancestor`). -/
inductive ChainWalk (prompts : Nat → Prompt) : Option Nat → List Nat → Prop
  | nil : ChainWalk prompts none []
  | cons (pid : Nat) (l : List Nat) :
      ChainWalk prompts (prompts pid).parent l → ChainWalk prompts (some pid) (pid :: l)

/-- Parent-walk from a (non-NULL) prompt down to a prompt with no parent (the
shape of the do-while loop of `mp_prompt_save`). -/
inductive ParentWalk (prompts : Nat → Prompt) : Nat → List Nat → Prop
  | last (pid : Nat) : (prompts pid).parent = none → ParentWalk prompts pid [pid]
  | cons (pid q : Nat) (l : List Nat) : (prompts pid).parent = some q →
      ParentWalk prompts q l → ParentWalk prompts pid (pid :: l)

/-- Per-prompt lifecycle phase, as described in the source comments. -/
inductive PPhase
  | suspended
  | active
  | freed
deriving DecidableEq

/-- Ghost lifecycle of a single prompt: its phase, whether it has ever been
entered (the PI transition of `mp_prompt_resume` has run on it), and its
`resume_point` field. -/
structure PromptLife where
  phase : PPhase
  entered : Bool
  resume_point : Option ResumePoint
deriving DecidableEq

/-- State of a prompt right after `mp_prompt_create`. -/
def PromptLife.init : PromptLife :=
  { phase := PPhase.suspended, entered := false, resume_point := none }

/-- The lifecycle transitions a single prompt undergoes in the source: PR
(link with a non-NULL resume point and jump into it), PI (link returned NULL,
so `mp_gstack_enter` runs the start function: the prompt is entered), YR
(`mp_yield_internal` unlinks with a fresh resume point), and RET/EXN
(`mp_prompt_stack_entry` unlinks with NULL and the receiver drops the
prompt). -/
inductive LifeStep : PromptLife → PromptLife → Prop
  | linkPR (l : PromptLife) (res : ResumePoint) :
      l.phase = PPhase.suspended → l.resume_point = some res →
      LifeStep l { l with phase := PPhase.active }
  | linkPI (l : PromptLife) :
      l.phase = PPhase.suspended → l.resume_point = none →
      LifeStep l { phase := PPhase.active, entered := true, resume_point := none }
  | yieldYR (l : PromptLife) (res : ResumePoint) :
      l.phase = PPhase.active →
      LifeStep l { l with phase := PPhase.suspended, resume_point := some res }
  | returnRET (l : PromptLife) :
      l.phase = PPhase.active →
      LifeStep l { l with phase := PPhase.freed, resume_point := none }

/-- Lifecycle states reachable from creation. -/
inductive LifeReach : PromptLife → Prop
  | init : LifeReach PromptLife.init
  | step (l l' : PromptLife) : LifeReach l → LifeStep l l' → LifeReach l'

/-- A zeroed prompt record (contents of unallocated heap cells). -/
def prompt0 : Prompt :=
  { parent := none, top := none, refcount := 0, gstack := 0, return_point := none,
    resume_point := none, start_fun := none, start_arg := 0, unwind_frame := none }

/-- A zeroed multi-resumption record. -/
def mresume0 : MResume :=
  { refcount := 0, resume_count := 0, prompt := 0, save := [], tail_return_point := none }

/-- The empty state. -/
def st0 : MPState :=
  { prompts := fun _ => prompt0, mresumes := fun _ => mresume0, prompt_top := none,
    next_block := 0, mr_alloc := fun _ => false, unwind_updates := [], gsave_restores := [],
    gsave_frees := [], gstack_frees := [], errors := [] }

/-- A sample resume point whose jump buffer has stack pointer 100. -/
def rp100 : ResumePoint := { jmp := { reg_sp := 100 }, result := 0 }

/-- A sample return point whose jump buffer has stack pointer 200. -/
def rt200 : ReturnPoint :=
  { jmp := { reg_sp := 200 }, kind := ReturnKind.mpReturn, yfun := 0, arg := 0 }

/-- Prompt 8: suspended root of a two-prompt captured chain, deepest child 16. -/
def st5prompt8 : Prompt :=
  { parent := none, top := some 16, refcount := 1, gstack := 8, return_point := none,
    resume_point := some rp100, start_fun := none, start_arg := 0, unwind_frame := none }

/-- Prompt 16: the deepest child of the chain captured by prompt 8. -/
def st5prompt16 : Prompt :=
  { parent := some 8, top := none, refcount := 1, gstack := 16, return_point := some rt200,
    resume_point := none, start_fun := none, start_arg := 0, unwind_frame := none }

/-- State holding the suspended two-prompt chain rooted at 8. -/
def st5 : MPState :=
  { st0 with prompts := fun q => if q = 8 then st5prompt8 else if q = 16 then st5prompt16 else prompt0 }

/-- State with a single suspended prompt 8 (as fresh from create). -/
def stLink : MPState :=
  { st0 with prompts := fun q => if q = 8 then { prompt0 with top := some 8, refcount := 1, gstack := 8 } else prompt0 }

/-- State with a single active prompt 8 at the top of the current chain. -/
def stActive : MPState :=
  { st0 with prompts := fun q => if q = 8 then { prompt0 with refcount := 1, gstack := 8 } else prompt0, prompt_top := some 8 }

/-- Multi-resumption record over prompt 8 holding a pre-existing save list. -/
def mr6a : MResume :=
  { refcount := 1, resume_count := 0, prompt := 8,
    save := [{ prompt := 8, gsave := { gstack := 8, sp := some 100 } }], tail_return_point := none }

/-- `st5` plus the record `mr6a` at address 24. -/
def st6a : MPState := { st5 with mresumes := fun q => if q = 24 then mr6a else mresume0 }

/-- Multi-resumption record over prompt 8 with refcount 2 and no save list. -/
def mr6b : MResume :=
  { refcount := 2, resume_count := 0, prompt := 8, save := [], tail_return_point := none }

/-- `st5` plus the record `mr6b` at address 24. -/
def st6b : MPState := { st5 with mresumes := fun q => if q = 24 then mr6b else mresume0 }

/-- Multi-resumption record over prompt 8, sole owner, no save list. -/
def mr6c : MResume :=
  { refcount := 1, resume_count := 0, prompt := 8, save := [], tail_return_point := none }

/-- A lone suspended prompt 8 plus the record `mr6c` at address 24. -/
def st6c : MPState :=
  { st0 with prompts := fun q => if q = 8 then { prompt0 with top := some 8, refcount := 1, gstack := 8 } else prompt0, mresumes := fun q => if q = 24 then mr6c else mresume0 }

/-- Like `st5` but prompt 8 has refcount 2, plus the record `mr6c` at 24. -/
def st6d : MPState :=
  { st5 with prompts := fun q => if q = 8 then { st5prompt8 with refcount := 2 } else st5.prompts q, mresumes := fun q => if q = 24 then mr6c else mresume0 }

/-- Multi-resumption record with a cached tail return point and refcount 2. -/
def mr8 : MResume :=
  { refcount := 2, resume_count := 0, prompt := 8, save := [], tail_return_point := some rt200 }

/-- `st5` plus the record `mr8` at address 24. -/
def st8 : MPState := { st5 with mresumes := fun q => if q = 24 then mr8 else mresume0 }

/-- A return point tagged `MP_YIELD_MULTI`. -/
def ret7 : ReturnPoint :=
  { jmp := { reg_sp := 0 }, kind := ReturnKind.mpYieldMulti, yfun := 3, arg := 7 }

theorem lifeReach_invariant (l : PromptLife) (h : LifeReach l) :
    (l.phase = PPhase.active → l.entered = true)
    ∧ (l.phase = PPhase.suspended → (l.resume_point = none ↔ l.entered = false)) := by
  induction h with
  | init => simp [PromptLife.init]
  | step m m' _ hstep ih =>
    cases hstep with
    | linkPR res h1 h2 =>
      constructor
      · intro _
        cases he : m.entered with
        | false =>
          have h3 := (ih.2 h1).mpr he
          rw [h2] at h3
          exact absurd h3 (by simp)
        | true => simp [he]
      · intro hc; simp at hc
    | linkPI h1 h2 =>
      constructor
      · intro _; rfl
      · intro hc; simp at hc
    | yieldYR res h1 =>
      constructor
      · intro hc; simp at hc
      · intro _
        simp [ih.1 h1]
    | returnRET h1 =>
      constructor
      · intro hc; simp at hc
      · intro hc; simp at hc

theorem chainWalk_unique {prompts : Nat → Prompt} :
    ∀ (l1 : List Nat) (o : Option Nat) (l2 : List Nat),
      ChainWalk prompts o l1 → ChainWalk prompts o l2 → l1 = l2 := by
  intro l1
  induction l1 with
  | nil =>
    intro o l2 h1 h2
    cases h1
    cases h2
    rfl
  | cons a t ih =>
    intro o l2 h1 h2
    cases h1 with
    | cons _ _ hw1 =>
      cases h2 with
      | cons _ _ hw2 =>
        rw [ih _ _ hw1 hw2]

theorem chainWalk_mem_some {prompts : Nat → Prompt} {o : Option Nat} {l : List Nat}
    {pid : Nat} (h : ChainWalk prompts o l) (hm : pid ∈ l) : ∃ q, o = some q := by
  cases h with
  | nil => simp at hm
  | cons q t _ => exact ⟨q, rfl⟩

theorem dup_prompts_apply (s : MPState) (pid q : Nat) :
    (mp_prompt_dup s pid).prompts q =
      if q = pid then { s.prompts pid with refcount := (s.prompts pid).refcount + 1 }
      else s.prompts q := by
  by_cases h : q = pid
  · subst h; simp [mp_prompt_dup]
  · simp [mp_prompt_dup, Function.update_noteq h, h]

theorem parentWalk_congr {f g : Nat → Prompt} (hpar : ∀ q, (g q).parent = (f q).parent) :
    ∀ {pid : Nat} {l : List Nat}, ParentWalk f pid l → ParentWalk g pid l := by
  intro pid l h
  induction h with
  | last p h0 => exact ParentWalk.last p (by rw [hpar]; exact h0)
  | cons p q t h0 _ ih => exact ParentWalk.cons p q t (by rw [hpar]; exact h0) ih

theorem free_loop_preserves (delay : Bool) :
    ∀ (fuel : Nat) (o : Option Nat) (s : MPState),
      (mp_prompt_free_loop delay s o fuel).gsave_restores = s.gsave_restores
      ∧ (mp_prompt_free_loop delay s o fuel).gsave_frees = s.gsave_frees
      ∧ (mp_prompt_free_loop delay s o fuel).mresumes = s.mresumes
      ∧ (mp_prompt_free_loop delay s o fuel).mr_alloc = s.mr_alloc
      ∧ (mp_prompt_free_loop delay s o fuel).prompt_top = s.prompt_top
      ∧ (∀ q, ((mp_prompt_free_loop delay s o fuel).prompts q).top = (s.prompts q).top) := by
  intro fuel
  induction fuel with
  | zero =>
    intro o s
    cases o <;> simp [mp_prompt_free_loop]
  | succ n ih =>
    intro o s
    cases o with
    | none => simp [mp_prompt_free_loop]
    | some pid =>
      simp only [mp_prompt_free_loop]
      split
      · rename_i par hp
        refine ⟨?_, ?_, ?_, ?_, ?_, ?_⟩
        · rw [(ih _ _).1]
        · rw [(ih _ _).2.1]
        · rw [(ih _ _).2.2.1]
        · rw [(ih _ _).2.2.2.1]
        · rw [(ih _ _).2.2.2.2.1]
        · intro q
          rw [(ih _ _).2.2.2.2.2 q]
          by_cases hq : q = par
          · subst hq; simp
          · simp [Function.update_noteq hq]
      · refine ⟨?_, ?_, ?_, ?_, ?_, ?_⟩
        · rw [(ih _ _).1]
        · rw [(ih _ _).2.1]
        · rw [(ih _ _).2.2.1]
        · rw [(ih _ _).2.2.2.1]
        · rw [(ih _ _).2.2.2.2.1]
        · intro q
          rw [(ih _ _).2.2.2.2.2 q]

theorem drop_internal_preserves (s : MPState) (pid : Nat) (delay : Bool) (fuel : Nat) :
    (mp_prompt_drop_internal s pid delay fuel).gsave_restores = s.gsave_restores
    ∧ (mp_prompt_drop_internal s pid delay fuel).gsave_frees = s.gsave_frees
    ∧ (mp_prompt_drop_internal s pid delay fuel).mresumes = s.mresumes
    ∧ (mp_prompt_drop_internal s pid delay fuel).mr_alloc = s.mr_alloc
    ∧ (mp_prompt_drop_internal s pid delay fuel).prompt_top = s.prompt_top := by
  by_cases h : (s.prompts pid).refcount ≤ 1
  · simp only [mp_prompt_drop_internal, mp_prompt_free, if_pos h]
    refine ⟨?_, ?_, ?_, ?_, ?_⟩
    · rw [(free_loop_preserves delay fuel _ _).1]
    · rw [(free_loop_preserves delay fuel _ _).2.1]
    · rw [(free_loop_preserves delay fuel _ _).2.2.1]
    · rw [(free_loop_preserves delay fuel _ _).2.2.2.1]
    · rw [(free_loop_preserves delay fuel _ _).2.2.2.2.1]
  · simp [mp_prompt_drop_internal, if_neg h]

theorem free_saves_preserves :
    ∀ (lst : List SaveNode) (s : MPState) (fuel : Nat),
      (mp_mresume_free_saves fuel s lst).gsave_restores = s.gsave_restores
      ∧ (mp_mresume_free_saves fuel s lst).gsave_frees
          = s.gsave_frees ++ lst.map SaveNode.gsave
      ∧ (mp_mresume_free_saves fuel s lst).mresumes = s.mresumes
      ∧ (mp_mresume_free_saves fuel s lst).mr_alloc = s.mr_alloc := by
  intro lst
  induction lst with
  | nil => intro s fuel; simp [mp_mresume_free_saves]
  | cons node rest ih =>
    intro s fuel
    simp only [mp_mresume_free_saves, mp_prompt_drop]
    refine ⟨?_, ?_, ?_, ?_⟩
    · rw [(ih _ _).1, (drop_internal_preserves _ _ _ _).1]
    · rw [(ih _ _).2.1, (drop_internal_preserves _ _ _ _).2.1]
      simp
    · rw [(ih _ _).2.2.1, (drop_internal_preserves _ _ _ _).2.2.1]
    · rw [(ih _ _).2.2.2, (drop_internal_preserves _ _ _ _).2.2.2.1]

theorem mresume_drop_gsave_restores (s : MPState) (rid : Nat) (fuel : Nat) :
    (mp_mresume_drop s rid fuel).gsave_restores = s.gsave_restores := by
  by_cases h : (s.mresumes rid).refcount ≤ 1
  · simp only [mp_mresume_drop, mp_prompt_drop, if_pos h]
    rw [(drop_internal_preserves _ _ _ _).1, (free_saves_preserves _ _ _).1]
  · simp [mp_mresume_drop, if_neg h]

theorem mresume_drop_high (s : MPState) (rid : Nat) (fuel : Nat)
    (h : ¬((s.mresumes rid).refcount ≤ 1)) :
    mp_mresume_drop s rid fuel =
      { s with mresumes := Function.update s.mresumes rid ({ s.mresumes rid with refcount := (s.mresumes rid).refcount - 1 }) } := by
  simp [mp_mresume_drop, if_neg h]

theorem dup_parent (s : MPState) (pid q : Nat) :
    ((mp_prompt_dup s pid).prompts q).parent = (s.prompts q).parent := by
  rw [dup_prompts_apply]
  by_cases hq : q = pid <;> simp [hq]

theorem dup_refcount (s : MPState) (pid q : Nat) :
    ((mp_prompt_dup s pid).prompts q).refcount
      = (s.prompts q).refcount + (if q = pid then 1 else 0) := by
  rw [dup_prompts_apply]
  by_cases hq : q = pid <;> simp [hq]

theorem save_loop_state_preserves :
    ∀ (fuel : Nat) (s : MPState) (sp : Option Nat) (pid : Nat) (acc : List SaveNode),
      (mp_prompt_save_loop s sp pid acc fuel).1.mresumes = s.mresumes
      ∧ (mp_prompt_save_loop s sp pid acc fuel).1.gsave_restores = s.gsave_restores
      ∧ (mp_prompt_save_loop s sp pid acc fuel).1.gsave_frees = s.gsave_frees
      ∧ (mp_prompt_save_loop s sp pid acc fuel).1.mr_alloc = s.mr_alloc
      ∧ (∀ q, ((mp_prompt_save_loop s sp pid acc fuel).1.prompts q).parent
            = (s.prompts q).parent) := by
  intro fuel
  induction fuel with
  | zero => intro s sp pid acc; simp [mp_prompt_save_loop]
  | succ n ih =>
    intro s sp pid acc
    simp only [mp_prompt_save_loop]
    split
    · refine ⟨rfl, rfl, rfl, rfl, ?_⟩
      intro q
      exact dup_parent s pid q
    · rename_i par hp
      refine ⟨?_, ?_, ?_, ?_, ?_⟩
      · rw [(ih _ _ _ _).1]; rfl
      · rw [(ih _ _ _ _).2.1]; rfl
      · rw [(ih _ _ _ _).2.2.1]; rfl
      · rw [(ih _ _ _ _).2.2.2.1]; rfl
      · intro q
        rw [(ih _ _ _ _).2.2.2.2 q]
        exact dup_parent s pid q

theorem save_loop_map_prompt :
    ∀ (l : List Nat) (s : MPState) (pid : Nat) (sp : Option Nat) (acc : List SaveNode)
      (fuel : Nat), ParentWalk s.prompts pid l → l.length ≤ fuel →
      ((mp_prompt_save_loop s sp pid acc fuel).2).map SaveNode.prompt
        = l.reverse ++ acc.map SaveNode.prompt := by
  intro l
  induction l with
  | nil => intro s pid sp acc fuel h _; cases h
  | cons a t ih =>
    intro s pid sp acc fuel h hf
    cases fuel with
    | zero => simp at hf
    | succ n =>
      simp only [mp_prompt_save_loop]
      cases h with
      | last _ h0 =>
        rw [h0]
        simp
      | cons _ q _ h0 hw =>
        have hlen : t.length ≤ n := by simp at hf; omega
        have hw1 := parentWalk_congr (fun x => dup_parent s a x) hw
        rw [h0]
        simp only []
        rw [ih _ q _ _ n hw1 hlen]
        simp

theorem save_loop_refcount :
    ∀ (l : List Nat) (s : MPState) (pid : Nat) (sp : Option Nat) (acc : List SaveNode)
      (fuel : Nat) (r : Nat), ParentWalk s.prompts pid l → l.length ≤ fuel →
      (((mp_prompt_save_loop s sp pid acc fuel).1).prompts r).refcount
        = (s.prompts r).refcount + (l.count r : Int) := by
  intro l
  induction l with
  | nil => intro s pid sp acc fuel r h _; cases h
  | cons a t ih =>
    intro s pid sp acc fuel r h hf
    cases fuel with
    | zero => simp at hf
    | succ n =>
      simp only [mp_prompt_save_loop]
      cases h with
      | last _ h0 =>
        rw [h0]
        simp only []
        rw [dup_refcount]
        by_cases hr : r = a <;> simp [hr, List.count_cons]
      | cons _ q _ h0 hw =>
        have hlen : t.length ≤ n := by simp at hf; omega
        have hw1 := parentWalk_congr (fun x => dup_parent s a x) hw
        rw [h0]
        simp only []
        rw [ih _ q _ _ n r hw1 hlen, dup_refcount]
        by_cases hr : r = a <;> simp [hr, List.count_cons] <;> omega

theorem mp_prompt_save_preserves (s : MPState) (pid : Nat) (fuel : Nat) :
    (mp_prompt_save s pid fuel).1.mresumes = s.mresumes
    ∧ (mp_prompt_save s pid fuel).1.gsave_restores = s.gsave_restores
    ∧ (mp_prompt_save s pid fuel).1.gsave_frees = s.gsave_frees
    ∧ (mp_prompt_save s pid fuel).1.mr_alloc = s.mr_alloc := by
  simp only [mp_prompt_save]
  split
  · exact ⟨(save_loop_state_preserves fuel _ _ _ _).1,
      (save_loop_state_preserves fuel _ _ _ _).2.1,
      (save_loop_state_preserves fuel _ _ _ _).2.2.1,
      (save_loop_state_preserves fuel _ _ _ _).2.2.2.1⟩
  · exact ⟨rfl, rfl, rfl, rfl⟩

theorem mp_prompt_save_spec (s : MPState) (pid t : Nat) (l : List Nat) (fuel : Nat)
    (htop : (s.prompts pid).top = some t)
    (hw : ParentWalk s.prompts t l) (hfuel : l.length ≤ fuel) :
    ((mp_prompt_save s pid fuel).2).map SaveNode.prompt = l.reverse
    ∧ (∀ r, (((mp_prompt_save s pid fuel).1).prompts r).refcount
        = (s.prompts r).refcount + (l.count r : Int)) := by
  constructor
  · have h := save_loop_map_prompt l s t
      ((s.prompts pid).resume_point.map (fun rp => rp.jmp.reg_sp)) [] fuel hw hfuel
    simp only [mp_prompt_save, htop]
    simpa using h
  · intro r
    have h := save_loop_refcount l s t
      ((s.prompts pid).resume_point.map (fun rp => rp.jmp.reg_sp)) [] fuel r hw hfuel
    simp only [mp_prompt_save, htop]
    exact h

theorem get_prompt_tail_high (s : MPState) (rid : Nat) (fuel : Nat)
    (h : ¬((s.mresumes rid).refcount ≤ 1)) :
    ((mp_resume_get_prompt s rid fuel).1.mresumes rid).tail_return_point
      = (s.mresumes rid).tail_return_point := by
  simp only [mp_resume_get_prompt]
  by_cases h1 : (s.mresumes rid).save ≠ []
  · rw [if_pos h1]
    have hrc : ¬(((mp_prompt_dup (mp_prompt_restore s (s.mresumes rid).save) (s.mresumes rid).prompt).mresumes rid).refcount ≤ 1) := h
    rw [mresume_drop_high _ _ _ hrc]
    simp [mp_prompt_dup, mp_prompt_restore]
  · rw [if_neg h1]
    by_cases h2 : (s.mresumes rid).refcount > 1 ∨ (s.prompts (s.mresumes rid).prompt).refcount > 1
    · rw [if_pos h2]
      have hm := (mp_prompt_save_preserves s (s.mresumes rid).prompt fuel).1
      have hrc : ¬(((mp_prompt_dup { (mp_prompt_save s (s.mresumes rid).prompt fuel).1 with mresumes := Function.update (mp_prompt_save s (s.mresumes rid).prompt fuel).1.mresumes rid ({ (mp_prompt_save s (s.mresumes rid).prompt fuel).1.mresumes rid with save := (mp_prompt_save s (s.mresumes rid).prompt fuel).2 }) } (s.mresumes rid).prompt).mresumes rid).refcount ≤ 1) := by
        simp [mp_prompt_dup, hm]
        omega
      rw [mresume_drop_high _ _ _ hrc]
      simp [mp_prompt_dup, hm]
    · rw [if_neg h2]
      have hrc : ¬(((mp_prompt_dup s (s.mresumes rid).prompt).mresumes rid).refcount ≤ 1) := h
      rw [mresume_drop_high _ _ _ hrc]
      simp [mp_prompt_dup]

theorem chainwalk_st0 : ChainWalk st0.prompts none [] := ChainWalk.nil

theorem chainwalk_stActive : ChainWalk stActive.prompts (some 8) [8] := by
  refine ChainWalk.cons 8 [] ?_
  have h : (stActive.prompts 8).parent = none := by decide
  rw [h]
  exact ChainWalk.nil

/-- C1: between operations a prompt is in the active state exactly when its
`top` field is NULL and in the suspended state exactly when `top` is non-NULL
(this is the code's own characterization, `mp_prompt_is_active`); the active
chain walked from the single thread-local top is unique; and every operation
that changes a prompt's state preserves the biconditional: `mp_prompt_create`
produces a suspended prompt, `mp_prompt_link` turns a suspended prompt
active, `mp_prompt_unlink` turns an active prompt lying on the current chain
suspended, and `mp_prompt_free` leaves every prompt's `top` field
untouched. -/
theorem mprompt_state_biconditional :
    (∀ (s : MPState) (pid : Nat),
        mp_prompt_is_active s (some pid) = true ↔ (s.prompts pid).top = none)
    ∧ (∀ (s : MPState) (o : Option Nat) (l1 l2 : List Nat),
        ChainWalk s.prompts o l1 → ChainWalk s.prompts o l2 → l1 = l2)
    ∧ (∀ (s : MPState) (f a : Nat),
        mp_prompt_is_active (mp_prompt_create s f a).1 (some (mp_prompt_create s f a).2) = false)
    ∧ (∀ (s : MPState) (pid : Nat) (ret : Option ReturnPoint),
        (s.prompts pid).top ≠ none →
        mp_prompt_is_active (mp_prompt_link s pid ret).1 (some pid) = true)
    ∧ (∀ (s : MPState) (pid : Nat) (res : Option ResumePoint) (l : List Nat),
        (s.prompts pid).top = none → ChainWalk s.prompts s.prompt_top l → pid ∈ l →
        mp_prompt_is_active (mp_prompt_unlink s pid res).1 (some pid) = false)
    ∧ (∀ (s : MPState) (pid : Nat) (delay : Bool) (fuel : Nat) (q : Nat),
        ((mp_prompt_free s pid delay fuel).prompts q).top = (s.prompts q).top) := by
  refine ⟨?_, ?_, ?_, ?_, ?_, ?_⟩
  · intro s pid
    simp [mp_prompt_is_active]
  · intro s o l1 l2 h1 h2
    exact chainWalk_unique l1 o l2 h1 h2
  · intro s f a
    simp [mp_prompt_create, mp_prompt_is_active]
  · intro s pid ret h
    simp [mp_prompt_link, mp_prompt_is_active, mp_prompt_top]
  · intro s pid res l hact hw hm
    obtain ⟨q, hq⟩ := chainWalk_mem_some hw hm
    simp [mp_prompt_unlink, mp_prompt_is_active, mp_prompt_top, hq]
  · intro s pid delay fuel q
    exact (free_loop_preserves delay fuel _ _).2.2.2.2.2 q

theorem mprompt_state_biconditional_witness :
    ((stLink.prompts 8).top ≠ none
      ∧ mp_prompt_is_active (mp_prompt_link stLink 8 none).1 (some 8) = true)
    ∧ ((stActive.prompts 8).top = none ∧ 8 ∈ [8]
      ∧ mp_prompt_is_active (mp_prompt_unlink stActive 8 none).1 (some 8) = false) := by
  constructor
  · exact ⟨by decide, mprompt_state_biconditional.2.2.2.1 stLink 8 none (by decide)⟩
  · exact ⟨by decide, by decide,
      mprompt_state_biconditional.2.2.2.2.1 stActive 8 none [8] (by decide)
        chainwalk_stActive (by decide)⟩

/-- C2: `mp_prompt_link` on a suspended prompt sets `parent` to the current
top, installs the captured chain head as the new current top, clears `top`,
stores a non-NULL `ret` in `return_point` while invoking the platform unwind
frame update, and returns `resume_point` — which, over the reachable
lifecycle of any prompt, is NULL exactly when the prompt has never been
entered. -/
theorem mp_prompt_link_spec (s : MPState) (pid : Nat) (rp : ReturnPoint)
    (hsusp : (s.prompts pid).top ≠ none) :
    (((mp_prompt_link s pid (some rp)).1.prompts pid).parent = s.prompt_top)
    ∧ ((mp_prompt_link s pid (some rp)).1.prompt_top = (s.prompts pid).top)
    ∧ (((mp_prompt_link s pid (some rp)).1.prompts pid).top = none)
    ∧ (((mp_prompt_link s pid (some rp)).1.prompts pid).return_point = some rp)
    ∧ ((mp_prompt_link s pid (some rp)).1.unwind_updates
        = s.unwind_updates ++ [((s.prompts pid).unwind_frame, rp.jmp)])
    ∧ ((mp_prompt_link s pid (some rp)).2 = (s.prompts pid).resume_point)
    ∧ (∀ l : PromptLife, LifeReach l → l.phase = PPhase.suspended →
        (l.resume_point = none ↔ l.entered = false)) := by
  refine ⟨?_, ?_, ?_, ?_, ?_, ?_, ?_⟩
  · simp [mp_prompt_link, mp_prompt_top]
  · simp [mp_prompt_link, mp_prompt_top]
  · simp [mp_prompt_link, mp_prompt_top]
  · simp [mp_prompt_link, mp_prompt_top]
  · simp [mp_prompt_link, mp_prompt_top]
  · simp [mp_prompt_link, mp_prompt_top]
  · intro l h hs
    exact (lifeReach_invariant l h).2 hs

theorem mp_prompt_link_spec_witness :
    (stLink.prompts 8).top ≠ none
    ∧ ((mp_prompt_link stLink 8 (some rt200)).1.prompts 8).parent = stLink.prompt_top
    ∧ (mp_prompt_link stLink 8 (some rt200)).1.prompt_top = (stLink.prompts 8).top
    ∧ ((mp_prompt_link stLink 8 (some rt200)).1.prompts 8).top = none
    ∧ ((mp_prompt_link stLink 8 (some rt200)).1.prompts 8).return_point = some rt200
    ∧ (mp_prompt_link stLink 8 (some rt200)).1.unwind_updates
        = stLink.unwind_updates ++ [((stLink.prompts 8).unwind_frame, rt200.jmp)]
    ∧ (mp_prompt_link stLink 8 (some rt200)).2 = (stLink.prompts 8).resume_point
    ∧ (PromptLife.init.resume_point = none ↔ PromptLife.init.entered = false) := by
  have h := mp_prompt_link_spec stLink 8 rt200 (by decide)
  exact ⟨by decide, h.1, h.2.1, h.2.2.1, h.2.2.2.1, h.2.2.2.2.1, h.2.2.2.2.2.1,
    h.2.2.2.2.2.2 PromptLife.init LifeReach.init rfl⟩

/-- C3: `mp_prompt_unlink` on an active prompt that is an ancestor of the
current top stores the current top in `p->top`, makes `p->parent` the new
current top, clears `parent`, stores `res` in `resume_point`, leaves
`return_point` unchanged, and returns the stored `return_point`. -/
theorem mp_prompt_unlink_spec (s : MPState) (pid : Nat) (res : Option ResumePoint)
    (l : List Nat) (hact : (s.prompts pid).top = none)
    (hchain : ChainWalk s.prompts s.prompt_top l) (hmem : pid ∈ l) :
    (((mp_prompt_unlink s pid res).1.prompts pid).top = s.prompt_top)
    ∧ ((mp_prompt_unlink s pid res).1.prompt_top = (s.prompts pid).parent)
    ∧ (((mp_prompt_unlink s pid res).1.prompts pid).parent = none)
    ∧ (((mp_prompt_unlink s pid res).1.prompts pid).resume_point = res)
    ∧ (((mp_prompt_unlink s pid res).1.prompts pid).return_point
        = (s.prompts pid).return_point)
    ∧ ((mp_prompt_unlink s pid res).2 = (s.prompts pid).return_point) := by
  refine ⟨?_, ?_, ?_, ?_, ?_, ?_⟩ <;> simp [mp_prompt_unlink, mp_prompt_top]

theorem mp_prompt_unlink_spec_witness :
    (stActive.prompts 8).top = none ∧ 8 ∈ [8]
    ∧ ((mp_prompt_unlink stActive 8 (some rp100)).1.prompts 8).top = stActive.prompt_top
    ∧ (mp_prompt_unlink stActive 8 (some rp100)).1.prompt_top = (stActive.prompts 8).parent
    ∧ ((mp_prompt_unlink stActive 8 (some rp100)).1.prompts 8).parent = none
    ∧ ((mp_prompt_unlink stActive 8 (some rp100)).1.prompts 8).resume_point = some rp100
    ∧ ((mp_prompt_unlink stActive 8 (some rp100)).1.prompts 8).return_point
        = (stActive.prompts 8).return_point
    ∧ (mp_prompt_unlink stActive 8 (some rp100)).2 = (stActive.prompts 8).return_point := by
  have h := mp_prompt_unlink_spec stActive 8 (some rp100) [8] (by decide)
    chainwalk_stActive (by decide)
  exact ⟨by decide, by decide, h.1, h.2.1, h.2.2.1, h.2.2.2.1, h.2.2.2.2.1, h.2.2.2.2.2⟩

/-- C4: a balanced `mp_prompt_link` / `mp_prompt_unlink` pair on the same
prompt restores the thread-local prompt top to its value before the link and
restores `p->top` to the chain head it held before the link, so a prompt
that was suspended is suspended again. -/
theorem link_unlink_balanced (s : MPState) (pid : Nat) (ret : Option ReturnPoint)
    (res : Option ResumePoint) :
    ((mp_prompt_unlink (mp_prompt_link s pid ret).1 pid res).1.prompt_top = s.prompt_top)
    ∧ (((mp_prompt_unlink (mp_prompt_link s pid ret).1 pid res).1.prompts pid).top
        = (s.prompts pid).top)
    ∧ ((s.prompts pid).top ≠ none →
        ((mp_prompt_unlink (mp_prompt_link s pid ret).1 pid res).1.prompts pid).top ≠ none) := by
  refine ⟨?_, ?_, ?_⟩
  · simp [mp_prompt_link, mp_prompt_unlink, mp_prompt_top]
  · simp [mp_prompt_link, mp_prompt_unlink, mp_prompt_top]
  · intro h
    simpa [mp_prompt_link, mp_prompt_unlink, mp_prompt_top] using h

theorem link_unlink_balanced_witness :
    ((mp_prompt_unlink (mp_prompt_link stLink 8 none).1 8 none).1.prompt_top
        = stLink.prompt_top)
    ∧ (((mp_prompt_unlink (mp_prompt_link stLink 8 none).1 8 none).1.prompts 8).top
        = (stLink.prompts 8).top)
    ∧ ((stLink.prompts 8).top ≠ none)
    ∧ (((mp_prompt_unlink (mp_prompt_link stLink 8 none).1 8 none).1.prompts 8).top ≠ none) := by
  have h := link_unlink_balanced stLink 8 none none
  exact ⟨h.1, h.2.1, by decide, h.2.2 (by decide)⟩

/-- C5 counterexample: on the concrete suspended chain of `st5` — root prompt
8 whose `top` (the deepest child of the captured slice) is prompt 16 — the
save list built by `mp_prompt_save` is `[8, 16]`: its head is the ROOT
prompt 8, not the deepest child 16, so the list is in parent→child order,
contrary to the claim. -/
theorem mp_prompt_save_head_counterexample :
    ((mp_prompt_save st5 8 5).2).map SaveNode.prompt = [8, 16]
    ∧ (st5.prompts 8).top = some 16
    ∧ ((mp_prompt_save st5 8 5).2).head?.map SaveNode.prompt ≠ (st5.prompts 8).top := by
  exact ⟨by decide, by decide, by decide⟩

theorem parentwalk_st5 : ParentWalk st5.prompts 16 [16, 8] := by
  refine ParentWalk.cons 16 8 [8] ?_ (ParentWalk.last 8 ?_)
  · decide
  · decide

/-- C5 (amended): for a multi-resumption with a non-empty save list, prepare
restores the stacklet snapshots of the save list head-first, which is
parent→child order: the save list built by `mp_prompt_save` walks the
suspended chain child→parent while prepending, so the finished list is in
parent→child order with the suspended root prompt (the prompt that was
yielded to) at the head and the deepest child at the tail; each save node
holds a reference (refcount increment) on its prompt. -/
theorem mp_prompt_save_restore_spec (s : MPState) (pid t : Nat) (l : List Nat)
    (fuel : Nat) (htop : (s.prompts pid).top = some t)
    (hw : ParentWalk s.prompts t l) (hroot : l.getLast? = some pid)
    (hfuel : l.length ≤ fuel) :
    (((mp_prompt_save s pid fuel).2).map SaveNode.prompt = l.reverse)
    ∧ (((mp_prompt_save s pid fuel).2).head?.map SaveNode.prompt = some pid)
    ∧ (∀ r, (((mp_prompt_save s pid fuel).1).prompts r).refcount
          = (s.prompts r).refcount + (l.count r : Int))
    ∧ (∀ (s2 : MPState) (save : List SaveNode),
        (mp_prompt_restore s2 save).gsave_restores
          = s2.gsave_restores ++ save.map SaveNode.gsave) := by
  have h := mp_prompt_save_spec s pid t l fuel htop hw hfuel
  refine ⟨h.1, ?_, h.2, ?_⟩
  · have h2 : (((mp_prompt_save s pid fuel).2).map SaveNode.prompt).head? = some pid := by
      rw [h.1, List.head?_reverse, hroot]
    rw [List.head?_map] at h2
    exact h2
  · intro s2 save
    simp [mp_prompt_restore]

theorem mp_prompt_save_restore_spec_witness :
    (st5.prompts 8).top = some 16
    ∧ ([16, 8].getLast? = some 8)
    ∧ ([16, 8].length ≤ 5)
    ∧ (((mp_prompt_save st5 8 5).2).map SaveNode.prompt = [16, 8].reverse)
    ∧ (((mp_prompt_save st5 8 5).2).head?.map SaveNode.prompt = some 8)
    ∧ (((mp_prompt_save st5 8 5).1.prompts 16).refcount
        = (st5.prompts 16).refcount + ([16, 8].count 16 : Int))
    ∧ ((mp_prompt_restore st5 []).gsave_restores = st5.gsave_restores ++ []) := by
  have h := mp_prompt_save_restore_spec st5 8 16 [16, 8] 5 (by decide) parentwalk_st5
    (by decide) (by decide)
  exact ⟨by decide, by decide, by decide, h.1, h.2.1, h.2.2.1 16, h.2.2.2 st5 []⟩

theorem drop_internal_high (s : MPState) (pid : Nat) (delay : Bool) (fuel : Nat)
    (h : ¬((s.prompts pid).refcount ≤ 1)) :
    mp_prompt_drop_internal s pid delay fuel = { s with prompts := Function.update s.prompts pid ({ s.prompts pid with refcount := (s.prompts pid).refcount - 1 }) } := by
  simp [mp_prompt_drop_internal, if_neg h]

/-- C6: `mp_resume_get_prompt` (prepare) takes exactly one of three actions,
in this order: when `r->save` is non-NULL it restores the saved snapshots;
else when `r->refcount > 1` or the prompt's refcount is `> 1` it snapshots
the suspended chain into `r->save`; else it does nothing.  In all cases it
then dups the prompt and drops `r` — when `r` was the sole owner the
reference is transferred, leaving the prompt's refcount unchanged — and
returns `r->prompt`. -/
theorem mp_resume_get_prompt_spec (s : MPState) (rid : Nat) (fuel : Nat) :
    ((mp_resume_get_prompt s rid fuel).2 = (s.mresumes rid).prompt)
    ∧ ((s.mresumes rid).save ≠ [] →
        (mp_resume_get_prompt s rid fuel).1.gsave_restores
          = s.gsave_restores ++ (s.mresumes rid).save.map SaveNode.gsave)
    ∧ ((s.mresumes rid).save = [] → (s.mresumes rid).refcount > 1 →
        ((mp_resume_get_prompt s rid fuel).1.mresumes rid).save
            = (mp_prompt_save s (s.mresumes rid).prompt fuel).2
          ∧ ((mp_resume_get_prompt s rid fuel).1.mresumes rid).refcount
            = (s.mresumes rid).refcount - 1
          ∧ (mp_resume_get_prompt s rid fuel).1.gsave_restores = s.gsave_restores)
    ∧ ((s.mresumes rid).save = [] → (s.mresumes rid).refcount = 1 →
        (s.prompts (s.mresumes rid).prompt).refcount > 1 →
        (mp_resume_get_prompt s rid fuel).1.gsave_restores = s.gsave_restores
        ∧ (mp_resume_get_prompt s rid fuel).1.gsave_frees
            = s.gsave_frees
              ++ ((mp_prompt_save s (s.mresumes rid).prompt fuel).2).map SaveNode.gsave
        ∧ (mp_resume_get_prompt s rid fuel).1.mr_alloc rid = false)
    ∧ ((s.mresumes rid).save = [] → (s.mresumes rid).refcount = 1 →
        (s.prompts (s.mresumes rid).prompt).refcount = 1 →
        (mp_resume_get_prompt s rid fuel).1.gsave_restores = s.gsave_restores
        ∧ (mp_resume_get_prompt s rid fuel).1.gsave_frees = s.gsave_frees
        ∧ ((mp_resume_get_prompt s rid fuel).1.prompts (s.mresumes rid).prompt).refcount = 1
        ∧ (mp_resume_get_prompt s rid fuel).1.mr_alloc rid = false) := by
  refine ⟨rfl, ?_, ?_, ?_, ?_⟩
  · intro hne
    simp only [mp_resume_get_prompt, if_pos hne]
    rw [mresume_drop_gsave_restores]
    simp [mp_prompt_dup, mp_prompt_restore]
  · intro hsave hrc
    have h1 : ¬((s.mresumes rid).save ≠ []) := by simp [hsave]
    have h2 : (s.mresumes rid).refcount > 1 ∨ (s.prompts (s.mresumes rid).prompt).refcount > 1 :=
      Or.inl hrc
    simp only [mp_resume_get_prompt, if_neg h1, if_pos h2]
    have hm := (mp_prompt_save_preserves s (s.mresumes rid).prompt fuel).1
    rw [mresume_drop_high]
    · refine ⟨?_, ?_, ?_⟩
      · simp [mp_prompt_dup, hm]
      · simp [mp_prompt_dup, hm]
      · simp [mp_prompt_dup, (mp_prompt_save_preserves s (s.mresumes rid).prompt fuel).2.1]
    · simp [mp_prompt_dup, hm]
      omega
  · intro hsave hrc hprc
    have h1 : ¬((s.mresumes rid).save ≠ []) := by simp [hsave]
    have h2 : (s.mresumes rid).refcount > 1 ∨ (s.prompts (s.mresumes rid).prompt).refcount > 1 :=
      Or.inr hprc
    simp only [mp_resume_get_prompt, if_neg h1, if_pos h2]
    have hm := (mp_prompt_save_preserves s (s.mresumes rid).prompt fuel).1
    have hle : ((mp_prompt_dup ({ (mp_prompt_save s (s.mresumes rid).prompt fuel).1 with mresumes := Function.update (mp_prompt_save s (s.mresumes rid).prompt fuel).1.mresumes rid ({ (mp_prompt_save s (s.mresumes rid).prompt fuel).1.mresumes rid with save := (mp_prompt_save s (s.mresumes rid).prompt fuel).2 }) }) (s.mresumes rid).prompt).mresumes rid).refcount ≤ 1 := by
      simp [mp_prompt_dup, hm, hrc]
    simp only [mp_mresume_drop, if_pos hle]
    refine ⟨?_, ?_, ?_⟩
    · rw [mp_prompt_drop, (drop_internal_preserves _ _ _ _).1, (free_saves_preserves _ _ _).1]
      simp [mp_prompt_dup, (mp_prompt_save_preserves s (s.mresumes rid).prompt fuel).2.1]
    · rw [mp_prompt_drop, (drop_internal_preserves _ _ _ _).2.1, (free_saves_preserves _ _ _).2.1]
      simp [mp_prompt_dup, hm, (mp_prompt_save_preserves s (s.mresumes rid).prompt fuel).2.2.1]
    · simp
  · intro hsave hrc hprc
    have h1 : ¬((s.mresumes rid).save ≠ []) := by simp [hsave]
    have h2 : ¬((s.mresumes rid).refcount > 1
        ∨ (s.prompts (s.mresumes rid).prompt).refcount > 1) := by
      simp [hrc, hprc]
    simp only [mp_resume_get_prompt, if_neg h1, if_neg h2]
    have hle : ((mp_prompt_dup s (s.mresumes rid).prompt).mresumes rid).refcount ≤ 1 := by
      simp [mp_prompt_dup, hrc]
    simp only [mp_mresume_drop, if_pos hle]
    have hsv : ((mp_prompt_dup s (s.mresumes rid).prompt).mresumes rid).save = [] := by
      simp [mp_prompt_dup, hsave]
    rw [hsv]
    simp only [mp_mresume_free_saves]
    rw [mp_prompt_drop, drop_internal_high]
    · refine ⟨rfl, rfl, ?_, ?_⟩
      · simp [mp_prompt_dup, dup_prompts_apply, hprc]
      · simp
    · simp [mp_prompt_dup, dup_prompts_apply, hprc]

theorem mp_resume_get_prompt_spec_witness :
    ((mp_resume_get_prompt st6c 24 5).2 = (st6c.mresumes 24).prompt)
    ∧ ((st6a.mresumes 24).save ≠ []
      ∧ (mp_resume_get_prompt st6a 24 5).1.gsave_restores
          = st6a.gsave_restores ++ (st6a.mresumes 24).save.map SaveNode.gsave)
    ∧ ((st6b.mresumes 24).save = [] ∧ (st6b.mresumes 24).refcount > 1
      ∧ ((mp_resume_get_prompt st6b 24 5).1.mresumes 24).save
          = (mp_prompt_save st6b (st6b.mresumes 24).prompt 5).2
      ∧ ((mp_resume_get_prompt st6b 24 5).1.mresumes 24).refcount
          = (st6b.mresumes 24).refcount - 1
      ∧ (mp_resume_get_prompt st6b 24 5).1.gsave_restores = st6b.gsave_restores)
    ∧ ((st6d.mresumes 24).save = [] ∧ (st6d.mresumes 24).refcount = 1
      ∧ (st6d.prompts (st6d.mresumes 24).prompt).refcount > 1
      ∧ (mp_resume_get_prompt st6d 24 5).1.gsave_restores = st6d.gsave_restores
      ∧ (mp_resume_get_prompt st6d 24 5).1.gsave_frees
          = st6d.gsave_frees
            ++ ((mp_prompt_save st6d (st6d.mresumes 24).prompt 5).2).map SaveNode.gsave
      ∧ (mp_resume_get_prompt st6d 24 5).1.mr_alloc 24 = false)
    ∧ ((st6c.mresumes 24).save = [] ∧ (st6c.mresumes 24).refcount = 1
      ∧ (st6c.prompts (st6c.mresumes 24).prompt).refcount = 1
      ∧ (mp_resume_get_prompt st6c 24 5).1.gsave_restores = st6c.gsave_restores
      ∧ (mp_resume_get_prompt st6c 24 5).1.gsave_frees = st6c.gsave_frees
      ∧ ((mp_resume_get_prompt st6c 24 5).1.prompts (st6c.mresumes 24).prompt).refcount = 1
      ∧ (mp_resume_get_prompt st6c 24 5).1.mr_alloc 24 = false) := by
  refine ⟨(mp_resume_get_prompt_spec st6c 24 5).1, ?_, ?_, ?_, ?_⟩
  · exact ⟨by decide, (mp_resume_get_prompt_spec st6a 24 5).2.1 (by decide)⟩
  · have h := (mp_resume_get_prompt_spec st6b 24 5).2.2.1 (by decide) (by decide)
    exact ⟨by decide, by decide, h.1, h.2.1, h.2.2⟩
  · have h := (mp_resume_get_prompt_spec st6d 24 5).2.2.2.1 (by decide) (by decide) (by decide)
    exact ⟨by decide, by decide, by decide, h.1, h.2.1, h.2.2⟩
  · have h := (mp_resume_get_prompt_spec st6c 24 5).2.2.2.2 (by decide) (by decide) (by decide)
    exact ⟨by decide, by decide, by decide, h.1, h.2.1, h.2.2.1, h.2.2.2⟩

/-- C7: when a control transfer arrives at the receiver dispatch with tag
`MP_YIELD_MULTI`, it allocates a fresh multi-resumption record with
`prompt = p`, `refcount = 1`, `resume_count = 0`, `save = NULL` and
`tail_return_point = p->return_point` captured at that moment, then calls
`ret->fun` with the bit-2-tagged multi handle and `ret->arg`, returning that
call's value; the prompt heap is untouched. -/
theorem exec_yield_multi_spec (s : MPState) (ret : ReturnPoint) (pid fuel : Nat)
    (hk : ret.kind = ReturnKind.mpYieldMulti) :
    ((mp_prompt_exec_yield_fun s ret pid fuel).1.mresumes (8 * s.next_block + 8)
       = { refcount := 1, resume_count := 0, prompt := pid, save := [],
           tail_return_point := (s.prompts pid).return_point })
    ∧ ((mp_prompt_exec_yield_fun s ret pid fuel).1.mr_alloc (8 * s.next_block + 8) = true)
    ∧ ((mp_prompt_exec_yield_fun s ret pid fuel).1.next_block = s.next_block + 1)
    ∧ ((mp_prompt_exec_yield_fun s ret pid fuel).2
       = ExecAction.callFun ret.yfun (mp_resume_multi (8 * s.next_block + 8)) ret.arg)
    ∧ ((mp_prompt_exec_yield_fun s ret pid fuel).1.prompts = s.prompts) := by
  simp [mp_prompt_exec_yield_fun, hk]

theorem exec_yield_multi_spec_witness :
    ret7.kind = ReturnKind.mpYieldMulti
    ∧ ((mp_prompt_exec_yield_fun st5 ret7 16 5).1.mresumes (8 * st5.next_block + 8)
       = { refcount := 1, resume_count := 0, prompt := 16, save := [],
           tail_return_point := (st5.prompts 16).return_point })
    ∧ ((mp_prompt_exec_yield_fun st5 ret7 16 5).1.mr_alloc (8 * st5.next_block + 8) = true)
    ∧ ((mp_prompt_exec_yield_fun st5 ret7 16 5).1.next_block = st5.next_block + 1)
    ∧ ((mp_prompt_exec_yield_fun st5 ret7 16 5).2
       = ExecAction.callFun ret7.yfun (mp_resume_multi (8 * st5.next_block + 8)) ret7.arg)
    ∧ ((mp_prompt_exec_yield_fun st5 ret7 16 5).1.prompts = st5.prompts) := by
  have h := exec_yield_multi_spec st5 ret7 16 5 (by decide)
  exact ⟨by decide, h.1, h.2.1, h.2.2.1, h.2.2.2.1, h.2.2.2.2⟩

/-- C8: `mp_mresume_tail` with a still-available cached tail return point
consumes it (the surviving record has it NULLed), obtains the prompt via
`mp_resume_get_prompt` (prepare), and performs a tail resume against the
cached return point; with no cached return point it falls back to the
ordinary `mp_mresume` path. -/
theorem mp_mresume_tail_spec (s : MPState) (rid arg fuel : Nat) :
    ((s.mresumes rid).tail_return_point = none →
       mp_mresume_tail s rid arg fuel = mp_mresume s rid arg fuel)
    ∧ (∀ ret : ReturnPoint, (s.mresumes rid).tail_return_point = some ret →
        ((mp_mresume_tail s rid arg fuel).2
          = ResumeAction.resumeTail (s.mresumes rid).prompt arg ret)
        ∧ ((s.mresumes rid).refcount > 1 →
            ((mp_mresume_tail s rid arg fuel).1.mresumes rid).tail_return_point = none)) := by
  constructor
  · intro hn
    simp only [mp_mresume_tail, hn]
  · intro ret hret
    constructor
    · simp only [mp_mresume_tail, hret]
      simp [mp_resume_get_prompt]
    · intro hrc
      simp only [mp_mresume_tail, hret]
      rw [get_prompt_tail_high]
      · simp
      · simp
        omega

theorem mp_mresume_tail_spec_witness :
    ((st6c.mresumes 24).tail_return_point = none
      ∧ mp_mresume_tail st6c 24 0 5 = mp_mresume st6c 24 0 5)
    ∧ ((st8.mresumes 24).tail_return_point = some rt200
      ∧ (mp_mresume_tail st8 24 0 5).2 = ResumeAction.resumeTail (st8.mresumes 24).prompt 0 rt200
      ∧ (st8.mresumes 24).refcount > 1
      ∧ ((mp_mresume_tail st8 24 0 5).1.mresumes 24).tail_return_point = none) := by
  constructor
  · exact ⟨by decide, (mp_mresume_tail_spec st6c 24 0 5).1 (by decide)⟩
  · have h := (mp_mresume_tail_spec st8 24 0 5).2 rt200 (by decide)
    exact ⟨by decide, h.1, by decide, h.2 (by decide)⟩

/-- C9: duplicating a once-resumption handle (bit 2 of the tagged pointer
clear) is an error: `mp_resume_dup` returns NULL, logs an `EINVAL` error
message, and leaves both heaps — in particular every refcount — untouched. -/
theorem mp_resume_dup_once_error (s : MPState) (h : Nat) (honce : h &&& 4 = 0) :
    ((mp_resume_dup s h).2 = none)
    ∧ ((mp_resume_dup s h).1.errors = s.errors ++ [22])
    ∧ ((mp_resume_dup s h).1.prompts = s.prompts)
    ∧ ((mp_resume_dup s h).1.mresumes = s.mresumes) := by
  simp [mp_resume_dup, mp_resume_is_multi, honce]

theorem mp_resume_dup_once_error_witness :
    ((8 : Nat) &&& 4 = 0)
    ∧ ((mp_resume_dup st6b 8).2 = none)
    ∧ ((mp_resume_dup st6b 8).1.errors = st6b.errors ++ [22])
    ∧ ((mp_resume_dup st6b 8).1.prompts = st6b.prompts)
    ∧ ((mp_resume_dup st6b 8).1.mresumes = st6b.mresumes) := by
  have h := mp_resume_dup_once_error st6b 8 (by decide)
  exact ⟨by decide, h.1, h.2.1, h.2.2.1, h.2.2.2⟩

/-- C10: on a once-resumption handle (bit 2 clear) the multi-shot queries
degenerate regardless of the underlying prompt: `mp_resume_resume_count`
returns 0 and `mp_resume_should_unwind` returns false. -/
theorem mp_resume_once_queries (s : MPState) (h : Nat) (honce : h &&& 4 = 0) :
    mp_resume_resume_count s h = 0 ∧ mp_resume_should_unwind s h = false := by
  simp [mp_resume_resume_count, mp_resume_should_unwind, mp_resume_is_multi, honce]

theorem mp_resume_once_queries_witness :
    ((8 : Nat) &&& 4 = 0)
    ∧ mp_resume_resume_count st6b 8 = 0
    ∧ mp_resume_should_unwind st6b 8 = false := by
  have h := mp_resume_once_queries st6b 8 (by decide)
  exact ⟨by decide, h.1, h.2⟩
